import Mathlib

/-!
Shallow embedding of the click/referral tracking core of `src/bot.py`
(user registry, click ledger, statistics queries), together with proofs
settling the specification claims about it.

Timestamps (`CURRENT_TIMESTAMP`, `datetime('now', ...)`) are modelled as
integer seconds; SQLite compares its textual timestamps chronologically, so
the integer order is faithful.  The string fed to the referral-code hash is
the rendering of `datetime.now().timestamp()`; it is passed as an explicit
`String` argument.
-/

/-! ### MD5 (`hashlib.md5(...).hexdigest()`), used by `add_user` for ref codes.
All 32-bit arithmetic is `Nat` with explicit `% 4294967296`. -/

def md5K : List Nat :=
  [0xd76aa478, 0xe8c7b756, 0x242070db, 0xc1bdceee,
   0xf57c0faf, 0x4787c62a, 0xa8304613, 0xfd469501,
   0x698098d8, 0x8b44f7af, 0xffff5bb1, 0x895cd7be,
   0x6b901122, 0xfd987193, 0xa679438e, 0x49b40821,
   0xf61e2562, 0xc040b340, 0x265e5a51, 0xe9b6c7aa,
   0xd62f105d, 0x02441453, 0xd8a1e681, 0xe7d3fbc8,
   0x21e1cde6, 0xc33707d6, 0xf4d50d87, 0x455a14ed,
   0xa9e3e905, 0xfcefa3f8, 0x676f02d9, 0x8d2a4c8a,
   0xfffa3942, 0x8771f681, 0x6d9d6122, 0xfde5380c,
   0xa4beea44, 0x4bdecfa9, 0xf6bb4b60, 0xbebfbc70,
   0x289b7ec6, 0xeaa127fa, 0xd4ef3085, 0x04881d05,
   0xd9d4d039, 0xe6db99e5, 0x1fa27cf8, 0xc4ac5665,
   0xf4292244, 0x432aff97, 0xab9423a7, 0xfc93a039,
   0x655b59c3, 0x8f0ccc92, 0xffeff47d, 0x85845dd1,
   0x6fa87e4f, 0xfe2ce6e0, 0xa3014314, 0x4e0811a1,
   0xf7537e82, 0xbd3af235, 0x2ad7d2bb, 0xeb86d391]

def md5S : List Nat :=
  [7, 12, 17, 22, 7, 12, 17, 22, 7, 12, 17, 22, 7, 12, 17, 22,
   5, 9, 14, 20, 5, 9, 14, 20, 5, 9, 14, 20, 5, 9, 14, 20,
   4, 11, 16, 23, 4, 11, 16, 23, 4, 11, 16, 23, 4, 11, 16, 23,
   6, 10, 15, 21, 6, 10, 15, 21, 6, 10, 15, 21, 6, 10, 15, 21]

def rotl32 (x s : Nat) : Nat :=
  ((x <<< s) ||| (x >>> (32 - s))) % 4294967296

def md5Round (M : List Nat) (st : Nat × Nat × Nat × Nat) (i : Nat) :
    Nat × Nat × Nat × Nat :=
  match st with
  | (a, b, c, d) =>
    let notb := b ^^^ 4294967295
    let notd := d ^^^ 4294967295
    let fg : Nat × Nat :=
      if i < 16 then ((b &&& c) ||| (notb &&& d), i)
      else if i < 32 then ((d &&& b) ||| (notd &&& c), (5 * i + 1) % 16)
      else if i < 48 then (b ^^^ c ^^^ d, (3 * i + 5) % 16)
      else (c ^^^ (b ||| notd), (7 * i) % 16)
    let f := (fg.1 + a + md5K.getD i 0 + M.getD fg.2 0) % 4294967296
    (d, (b + rotl32 f (md5S.getD i 0)) % 4294967296, b, c)

def leWord (bs : List Nat) : Nat :=
  bs.getD 0 0 + 256 * (bs.getD 1 0 + 256 * (bs.getD 2 0 + 256 * bs.getD 3 0))

def md5ChunkStep (st : Nat × Nat × Nat × Nat) (chunk : List Nat) :
    Nat × Nat × Nat × Nat :=
  let M := (List.range 16).map (fun j => leWord ((chunk.drop (4 * j)).take 4))
  match st, (List.range 64).foldl (md5Round M) st with
  | (a0, b0, c0, d0), (a, b, c, d) =>
    ((a0 + a) % 4294967296, (b0 + b) % 4294967296,
     (c0 + c) % 4294967296, (d0 + d) % 4294967296)

def leBytes : Nat → Nat → List Nat
  | 0, _ => []
  | n + 1, x => x % 256 :: leBytes n (x / 256)

def md5Pad (msg : List Nat) : List Nat :=
  let z := (119 - msg.length % 64) % 64
  msg ++ [128] ++ List.replicate z 0 ++ leBytes 8 (8 * msg.length)

def md5Digest (msg : List Nat) : List Nat :=
  let padded := md5Pad msg
  let chunks := (List.range (padded.length / 64)).map
    (fun k => (padded.drop (64 * k)).take 64)
  match chunks.foldl md5ChunkStep (1732584193, 4023233417, 2562383102, 271733878) with
  | (a, b, c, d) => leBytes 4 a ++ leBytes 4 b ++ leBytes 4 c ++ leBytes 4 d

def hexChar (n : Nat) : Char :=
  if n < 10 then Char.ofNat (48 + n) else Char.ofNat (87 + n)

def byteHex (b : Nat) : List Char := [hexChar (b / 16), hexChar (b % 16)]

/-- UTF-8 bytes of a string; the inputs hashed by the program (digits, minus
sign, dot) are ASCII, where the code points are the bytes. -/
def strBytes (s : String) : List Nat := s.data.map Char.toNat

def md5Hex (s : String) : String :=
  String.mk (((md5Digest (strBytes s)).map byteHex).flatten)

/-- Model of `hashlib.md5(f"{telegram_id}{timestamp}".encode()).hexdigest()[:8]`
from `add_user`; `tsStr` is the rendered `datetime.now().timestamp()`. -/
def genRefCode (telegram_id : Int) (tsStr : String) : String :=
  (md5Hex (toString telegram_id ++ tsStr)).take 8

set_option maxRecDepth 100000

/-! ### Data model: the `users` and `clicks` tables of `init_db` -/

structure UserRow where
  id : Nat
  telegram_id : Int
  username : String
  first_name : String
  last_name : String
  registered_at : Int
  clicks_count : Nat
  ref_code : Option String
  referrer_id : Option Int
  last_active : Int
deriving Repr, DecidableEq

structure ClickRow where
  id : Nat
  user_id : Nat
  platform : String
  course_id : Option Int
  clicked_at : Int
deriving Repr, DecidableEq

/-- The store.  `nextUserId` / `nextClickId` model the `AUTOINCREMENT`
primary keys of the two tables. -/
structure DB where
  users : List UserRow
  clicks : List ClickRow
  nextUserId : Nat
  nextClickId : Nat
deriving Repr, DecidableEq

def PARTNER_LINKS : List (String × String) :=
  [("skillbox", "https://l.skbx.pro/DQLFW6"),
   ("skillfactory", "https://go.redav.online/26e5202921d69dd1"),
   ("geekbrains", "https://go.redav.online/17d53d9e858961e1")]

/-- The fixed enumerated platform set (the keys of `PARTNER_LINKS`). -/
def platforms : List String := PARTNER_LINKS.map (·.1)

/-! ### Registry operations -/

/-- Model of `add_user`: one `INSERT OR IGNORE INTO users ...` followed by
`conn.commit()`, returning the freshly generated `ref_code` — also when the
insert was ignored.  The insert is ignored when the `UNIQUE` constraint on
`telegram_id` or on `ref_code` would be violated.  (The `except` path,
which returns `None` on a store fault, is outside this model.) -/
def add_user (db : DB) (telegram_id : Int)
    (username first_name last_name : String) (referrer_id : Option Int)
    (now : Int) (tsStr : String) : DB × String :=
  let ref_code := genRefCode telegram_id tsStr
  if db.users.any (fun u => u.telegram_id == telegram_id)
      || db.users.any (fun u => u.ref_code == some ref_code) then
    (db, ref_code)
  else
    ({ db with
        users := db.users ++
          [{ id := db.nextUserId, telegram_id := telegram_id,
             username := username, first_name := first_name,
             last_name := last_name, registered_at := now, clicks_count := 0,
             ref_code := some ref_code, referrer_id := referrer_id,
             last_active := now }],
        nextUserId := db.nextUserId + 1 }, ref_code)

/-- Model of `update_user_activity`: `UPDATE users SET last_active = CURRENT_TIMESTAMP
WHERE telegram_id = ?`; updating zero rows is not an error. -/
def update_user_activity (db : DB) (telegram_id : Int) (now : Int) : DB :=
  { db with users := db.users.map (fun u =>
      if u.telegram_id == telegram_id then { u with last_active := now } else u) }

/-! ### Ledger operations -/

/-- Model of `add_click`.  Every `return` in the Python function is a bare `return`,
so the caller receives `None` on every path, success included; the second
component of the result is that returned value.  `commitOk = false` models
a store write failure surfacing at `conn.commit()`: the exception is caught,
logged, and the connection closed without committing, so the buffered
transaction (click insert, counter increment, activity refresh) is rolled
back as one unit. -/
def add_click (db : DB) (telegram_id : Int) (platform : String)
    (course_id : Option Int) (now : Int) (commitOk : Bool) : DB × Option Unit :=
  if ¬ (platforms.contains platform) then (db, none)
  else
    match db.users.find? (fun u => u.telegram_id == telegram_id) with
    | none => (db, none)
    | some u =>
      if commitOk then
        ({ db with
            clicks := db.clicks ++
              [{ id := db.nextClickId, user_id := u.id, platform := platform,
                 course_id := course_id, clicked_at := now }],
            users := db.users.map (fun v =>
              if v.id == u.id then
                { v with clicks_count := v.clicks_count + 1, last_active := now }
              else v),
            nextClickId := db.nextClickId + 1 }, none)
      else (db, none)

/-! ### Statistics queries -/

/-- Keep the first occurrence of each element (`GROUP BY` / `DISTINCT`
key collection). -/
def dedupFirst {α : Type} [DecidableEq α] (l : List α) : List α :=
  l.foldl (fun acc p => if acc.contains p then acc else acc ++ [p]) []

/-- The click rows joined to the user with this telegram id
(`JOIN users u ON c.user_id = u.id WHERE u.telegram_id = ?`). -/
def userClicks (db : DB) (telegram_id : Int) : List ClickRow :=
  db.clicks.filter (fun c =>
    db.users.any (fun u => u.id == c.user_id && u.telegram_id == telegram_id))

/-- Query `SELECT platform, COUNT(*) ... GROUP BY platform` over a click list. -/
def platformCounts (cs : List ClickRow) : List (String × Nat) :=
  (dedupFirst (cs.map (·.platform))).map
    (fun p => (p, (cs.filter (fun c => c.platform == p)).length))

/-- Comparison for `ORDER BY clicks DESC` (SQL leaves tie order unspecified;
the model fixes one permissible order via a stable sort). -/
def countDesc (a b : String × Nat) : Prop := b.2 ≤ a.2

instance : DecidableRel countDesc := fun a b =>
  inferInstanceAs (Decidable (b.2 ≤ a.2))

instance : IsTotal (String × Nat) countDesc :=
  ⟨fun a b => Nat.le_total b.2 a.2⟩

instance : IsTrans (String × Nat) countDesc :=
  ⟨fun _ _ _ hab hbc => Nat.le_trans hbc hab⟩

/-- Comparison for `ORDER BY clicked_at DESC`. -/
def timeDesc (a b : ClickRow) : Prop := b.clicked_at ≤ a.clicked_at

instance : DecidableRel timeDesc := fun a b =>
  inferInstanceAs (Decidable (b.clicked_at ≤ a.clicked_at))

instance : IsTotal ClickRow timeDesc :=
  ⟨fun a b => Int.le_total b.clicked_at a.clicked_at⟩

instance : IsTrans ClickRow timeDesc :=
  ⟨fun _ _ _ hab hbc => Int.le_trans hbc hab⟩

structure UserStats where
  user : UserRow
  platforms_count : Nat
  total_clicks : Nat
  platforms_clicks : List (String × Nat)
  recent_clicks : List (String × Int)
deriving Repr, DecidableEq

/-- Model of `get_user_stats`: the main row (user fields plus
`COUNT(DISTINCT c.platform)` and `COUNT(c.id)` over a `LEFT JOIN`), the
per-platform breakdown ordered by descending count, and the 5 most recent
clicks ordered by descending timestamp.  `None` when no user row matches. -/
def get_user_stats (db : DB) (telegram_id : Int) : Option UserStats :=
  match db.users.find? (fun u => u.telegram_id == telegram_id) with
  | none => none
  | some u =>
    let cs := userClicks db telegram_id
    some { user := u
         , platforms_count := (dedupFirst (cs.map (·.platform))).length
         , total_clicks := cs.length
         , platforms_clicks := List.insertionSort countDesc (platformCounts cs)
         , recent_clicks := ((List.insertionSort timeDesc cs).take 5).map
             (fun c => (c.platform, c.clicked_at)) }

/-! ### Global statistics (the queries of `admin_panel`) -/

def sevenDays : Int := 7 * 86400

/-- Rows of `users` passing `last_active > datetime('now', '-7 days')`. -/
def activeRows (db : DB) (now : Int) : List UserRow :=
  db.users.filter (fun u => now - sevenDays < u.last_active)

/-- Query `SELECT COUNT(DISTINCT telegram_id) FROM users WHERE last_active >
datetime('now', '-7 days')`. -/
def active_users_7d (db : DB) (now : Int) : Nat :=
  (dedupFirst ((activeRows db now).map (·.telegram_id))).length

/-- Query `SELECT COUNT(*) as total FROM users`. -/
def total_users (db : DB) : Nat := db.users.length

/-- Query `SELECT COUNT(*) as total FROM clicks`. -/
def totalClicksGlobal (db : DB) : Nat := db.clicks.length

/-! ### Sample stores used by witnesses and counterexamples -/

/-- Fresh store (`AUTOINCREMENT` counters start at 1). -/
def emptyDB : DB := { users := [], clicks := [], nextUserId := 1, nextClickId := 1 }

/-- User row as produced by registering external id 10 at time 1000
(`genRefCode 10 "1000.0" = "258b60b6"`), after three recorded clicks. -/
def sampleUser : UserRow :=
  { id := 1, telegram_id := 10, username := "u", first_name := "f",
    last_name := "l", registered_at := 0, clicks_count := 3,
    ref_code := some "258b60b6", referrer_id := none, last_active := 300 }

/-- Store holding `sampleUser` and the clicks
`{(skillbox, 100), (skillbox, 200), (geekbrains, 300)}`. -/
def sampleDb : DB :=
  { users := [sampleUser],
    clicks := [{ id := 1, user_id := 1, platform := "skillbox",
                 course_id := none, clicked_at := 100 },
               { id := 2, user_id := 1, platform := "skillbox",
                 course_id := some 2, clicked_at := 200 },
               { id := 3, user_id := 1, platform := "geekbrains",
                 course_id := none, clicked_at := 300 }],
    nextUserId := 2, nextClickId := 4 }

/-- User row with external id 20, registered at time 2050, no clicks yet. -/
def loneUser : UserRow :=
  { id := 1, telegram_id := 20, username := "w", first_name := "q",
    last_name := "z", registered_at := 2050, clicks_count := 0,
    ref_code := some "a72db53c", referrer_id := none, last_active := 2050 }

/-- Store with one registered, click-free user. -/
def loneDb : DB :=
  { users := [loneUser], clicks := [], nextUserId := 2, nextClickId := 1 }

/-! ### Observables -/

/-- Lookup of the first row of `SELECT ... FROM users WHERE telegram_id = ?`. -/
def userByTid (db : DB) (tid : Int) : Option UserRow :=
  db.users.find? (fun u => u.telegram_id == tid)

/-- Ledger rows belonging to the user row with primary key `uid`. -/
def clicksOf (db : DB) (uid : Nat) : List ClickRow :=
  db.clicks.filter (fun c => c.user_id == uid)

/-- Comparison of recent-click result pairs by descending timestamp. -/
def pairTimeDesc (a b : String × Int) : Prop := b.2 ≤ a.2

/-! ### Registration sequences and further sample data -/

/-- User row that was last active exactly now (time 864000). -/
def uNow : UserRow :=
  { id := 1, telegram_id := 1, username := "a", first_name := "a",
    last_name := "a", registered_at := 0, clicks_count := 0,
    ref_code := some "084d739f", referrer_id := none, last_active := 864000 }

/-- User row whose last activity is 8 days before time 864000. -/
def uOld : UserRow :=
  { id := 2, telegram_id := 2, username := "b", first_name := "b",
    last_name := "b", registered_at := 0, clicks_count := 0,
    ref_code := some "5d1dded1", referrer_id := none, last_active := 172800 }

/-- Store with one currently active and one 8-days-stale user. -/
def dbC6 : DB :=
  { users := [uNow, uOld], clicks := [], nextUserId := 3, nextClickId := 1 }

/-- Row inserted by a successful `add_user`. -/
def newUserRow (db : DB) (tid : Int) (un fn ln : String) (rid : Option Int)
    (now : Int) (ts : String) : UserRow :=
  { id := db.nextUserId, telegram_id := tid, username := un,
    first_name := fn, last_name := ln, registered_at := now,
    clicks_count := 0, ref_code := some (genRefCode tid ts),
    referrer_id := rid, last_active := now }


/-- Arguments of one first-time registration request. -/
structure RegReq where
  telegram_id : Int
  username : String
  first_name : String
  last_name : String
  referrer_id : Option Int
  now : Int
  tsStr : String
deriving Repr, DecidableEq

/-- Referral code generated for a request. -/
def regCode (r : RegReq) : String := genRefCode r.telegram_id r.tsStr

/-- Sequential execution of a list of registrations. -/
def runRegs (db : DB) : List RegReq → DB
  | [] => db
  | r :: rs => runRegs (add_user db r.telegram_id r.username r.first_name
      r.last_name r.referrer_id r.now r.tsStr).1 rs

/-- Store already holding a user whose referral code happens to equal
`genRefCode 42 "1000.0" = "65017e52"` — the code that the next registration
of external id 42 will generate. -/
def plantedDb : DB :=
  { users := [{ id := 1, telegram_id := 7, username := "v", first_name := "g",
                last_name := "m", registered_at := 0, clicks_count := 0,
                ref_code := some "65017e52", referrer_id := none,
                last_active := 0 }],
    clicks := [], nextUserId := 2, nextClickId := 1 }

/-- Two concrete first-time registrations with distinct external ids whose
generated codes (`"084d739f"`, `"325e21da"`) are distinct. -/
def twoRegs : List RegReq :=
  [{ telegram_id := 1, username := "u", first_name := "f", last_name := "l",
     referrer_id := none, now := 100, tsStr := "100.0" },
   { telegram_id := 2, username := "p", first_name := "q", last_name := "r",
     referrer_id := none, now := 1001, tsStr := "1001.0" }]

/-- Statistics record returned for `sampleDb`, external id 10. -/
def sampleStats : UserStats :=
  { user := sampleUser, platforms_count := 2, total_clicks := 3,
    platforms_clicks := [("skillbox", 2), ("geekbrains", 1)],
    recent_clicks := [("geekbrains", 300), ("skillbox", 200), ("skillbox", 100)] }

/-! ### Helper lemmas -/

theorem md5Hex_abc : md5Hex "abc" = "900150983cd24fb0d6963f7d28e17f72" := by
  rfl

theorem md5Hex_empty : md5Hex "" = "d41d8cd98f00b204e9800998ecf8427e" := by
  rfl

theorem genRefCode_42 : genRefCode 42 "1000.0" = "65017e52" := by
  rfl


theorem touch_preserves_tid (tid : Int) (now : Int) (u : UserRow) :
    (if u.telegram_id == tid then { u with last_active := now } else u).telegram_id
      = u.telegram_id := by
  split <;> rfl

theorem find?_tid_map (l : List UserRow) (f : UserRow → UserRow) (tid : Int)
    (hf : ∀ u, (f u).telegram_id = u.telegram_id) :
    (l.map f).find? (fun u => u.telegram_id == tid)
      = Option.map f (l.find? (fun u => u.telegram_id == tid)) := by
  have h : ((fun u : UserRow => u.telegram_id == tid) ∘ f)
      = fun u : UserRow => u.telegram_id == tid := by
    funext u
    simp [Function.comp, hf]
  rw [List.find?_map, h]

theorem touch_no_match (l : List UserRow) (tid : Int) (now : Int)
    (h : ∀ u ∈ l, u.telegram_id ≠ tid) :
    l.map (fun u =>
      if u.telegram_id == tid then { u with last_active := now } else u) = l := by
  trans l.map id
  · apply List.map_congr_left
    intro a ha
    have hne : (a.telegram_id == tid) = false := by
      simp [h a ha]
    simp [hne]
  · exact List.map_id l

/-! ### Claim C7 -/

/-- C7: for an external id that has never been registered, `get_user_stats`
returns the absent result `none` — not an exception (the model is a total
function, mirroring the catch-all `except` that degrades to `None`) and not
a zeroed record. -/
theorem getUserStats_absent (db : DB) (tid : Int)
    (h : ∀ u ∈ db.users, u.telegram_id ≠ tid) :
    get_user_stats db tid = none := by
  unfold get_user_stats
  have hf : db.users.find? (fun u => u.telegram_id == tid) = none := by
    rw [List.find?_eq_none]
    intro u hu
    simp [h u hu]
  rw [hf]

/-- Witness for C7: external id 99 was never registered in `sampleDb`. -/
theorem getUserStats_absent_witness :
    (∀ u ∈ sampleDb.users, u.telegram_id ≠ (99 : Int)) ∧
    get_user_stats sampleDb 99 = none :=
  ⟨by decide, getUserStats_absent sampleDb 99 (by decide)⟩

/-! ### Claim C8 -/

/-- C8: `update_user_activity` sets `last_active` (to the current time) on
exactly the row of the addressed user, is a complete no-op when no user has
that external id (and, being total, raises nothing), leaves the ledger
alone, leaves every other user's row untouched, and changes no field other
than `last_active`. -/
theorem updateActivity_touch (db : DB) (tid : Int) (now : Int) :
    ((∀ u ∈ db.users, u.telegram_id ≠ tid) →
        update_user_activity db tid now = db) ∧
    (update_user_activity db tid now).clicks = db.clicks ∧
    userByTid (update_user_activity db tid now) tid
      = Option.map (fun u => { u with last_active := now }) (userByTid db tid) ∧
    (∀ tid2 : Int, tid2 ≠ tid →
      userByTid (update_user_activity db tid now) tid2 = userByTid db tid2) ∧
    (update_user_activity db tid now).users.map
        (fun u => (u.id, u.telegram_id, u.username, u.first_name, u.last_name,
                   u.registered_at, u.clicks_count, u.ref_code, u.referrer_id))
      = db.users.map
        (fun u => (u.id, u.telegram_id, u.username, u.first_name, u.last_name,
                   u.registered_at, u.clicks_count, u.ref_code, u.referrer_id)) := by
  refine ⟨?_, rfl, ?_, ?_, ?_⟩
  · intro h
    unfold update_user_activity
    rw [touch_no_match db.users tid now h]
  · unfold update_user_activity userByTid
    rw [find?_tid_map db.users _ tid (touch_preserves_tid tid now)]
    cases hfind : db.users.find? (fun u => u.telegram_id == tid) with
    | none => rfl
    | some u =>
      have hp := List.find?_some hfind
      show some (if u.telegram_id == tid then { u with last_active := now } else u)
        = some { u with last_active := now }
      rw [if_pos hp]
  · intro tid2 hne
    unfold update_user_activity userByTid
    rw [find?_tid_map db.users _ tid2 (touch_preserves_tid tid now)]
    cases hfind : db.users.find? (fun u => u.telegram_id == tid2) with
    | none => rfl
    | some u =>
      have hp := List.find?_some hfind
      have htid : u.telegram_id = tid2 := by simpa using hp
      have hfalse : ¬ ((u.telegram_id == tid) = true) := by
        simp [htid, hne]
      show some (if u.telegram_id == tid then { u with last_active := now } else u)
        = some u
      rw [if_neg hfalse]
  · unfold update_user_activity
    simp only [List.map_map]
    apply List.map_congr_left
    intro a _
    by_cases hc : (a.telegram_id == tid) = true
    · simp [Function.comp, hc]
    · simp [Function.comp, hc]

/-- Witness for C8: touching id 99 (absent) leaves `loneDb` intact; touching
id 10 in `sampleDb` refreshes exactly that row's `last_active` and leaves
the (absent) id 11 lookup unchanged. -/
theorem updateActivity_touch_witness :
    update_user_activity loneDb 99 500 = loneDb ∧
    userByTid (update_user_activity sampleDb 10 500) 10
      = Option.map (fun u => { u with last_active := 500 })
          (userByTid sampleDb 10) ∧
    userByTid (update_user_activity sampleDb 10 500) 11 = userByTid sampleDb 11 :=
  ⟨(updateActivity_touch loneDb 99 500).1 (by decide),
   (updateActivity_touch sampleDb 10 500).2.2.1,
   (updateActivity_touch sampleDb 10 500).2.2.2.1 11 (by decide)⟩

/-! ### Claim C10 -/

/-- C10: a registered user with zero recorded clicks gets a present
(non-`none`) result whose totals are 0 and whose breakdown and recent lists
are empty — distinguishable from a never-registered id. -/
theorem getUserStats_zero_clicks (db : DB) (tid : Int) (u : UserRow)
    (hu : userByTid db tid = some u) (hz : userClicks db tid = []) :
    get_user_stats db tid
      = some { user := u, platforms_count := 0, total_clicks := 0,
               platforms_clicks := [], recent_clicks := [] } ∧
    get_user_stats db tid ≠ none := by
  unfold get_user_stats
  unfold userByTid at hu
  rw [hu]
  refine ⟨by simp only [hz]; rfl, by simp⟩

/-- Witness for C10: `loneDb` holds exactly one registered, click-free user. -/
theorem getUserStats_zero_clicks_witness :
    userByTid loneDb 20 = some loneUser ∧
    userClicks loneDb 20 = [] ∧
    get_user_stats loneDb 20
      = some { user := loneUser, platforms_count := 0, total_clicks := 0,
               platforms_clicks := [], recent_clicks := [] } ∧
    get_user_stats loneDb 20 ≠ none :=
  ⟨by decide, by decide,
   (getUserStats_zero_clicks loneDb 20 loneUser (by decide) (by decide)).1,
   (getUserStats_zero_clicks loneDb 20 loneUser (by decide) (by decide)).2⟩

/-! ### Claim C6 -/

/-- C6: the admin panel's 7-day active count is driven by `last_active`
alone: a user whose `last_active` is 8 days old fails the
`last_active > datetime('now', '-7 days')` filter, one whose `last_active`
is `now` passes it, and the count is a function of the `users` table only —
the `clicks` ledger never enters it. -/
theorem active7d_window (db db2 : DB) (now : Int) (u : UserRow)
    (hu : u ∈ db.users) (husers : db2.users = db.users) :
    (u.last_active = now - 8 * 86400 → u ∉ activeRows db now) ∧
    (u.last_active = now → u ∈ activeRows db now) ∧
    active_users_7d db2 now = active_users_7d db now := by
  refine ⟨?_, ?_, ?_⟩
  · intro h hmem
    have hcond := (List.mem_filter.mp hmem).2
    rw [h] at hcond
    simp only [decide_eq_true_eq, sevenDays] at hcond
    omega
  · intro h
    unfold activeRows
    rw [List.mem_filter]
    refine ⟨hu, ?_⟩
    rw [h]
    simp only [decide_eq_true_eq, sevenDays]
    omega
  · unfold active_users_7d activeRows
    rw [husers]

/-- Witness for C6: in `dbC6` at time 864000, `uOld` (8 days stale) is
filtered out, `uNow` is counted, and the resulting count is 1. -/
theorem active7d_window_witness :
    uOld ∈ dbC6.users ∧ uNow ∈ dbC6.users ∧
    uOld ∉ activeRows dbC6 864000 ∧ uNow ∈ activeRows dbC6 864000 ∧
    active_users_7d dbC6 864000 = 1 :=
  ⟨by decide, by decide,
   (active7d_window dbC6 dbC6 864000 uOld (by decide) rfl).1 (by decide),
   (active7d_window dbC6 dbC6 864000 uNow (by decide) rfl).2.1 (by decide),
   by decide⟩

/-! ### Claim C1 -/

theorem bump_preserves_tid (uid : Nat) (now : Int) (v : UserRow) :
    (if v.id == uid then
        { v with clicks_count := v.clicks_count + 1, last_active := now }
      else v).telegram_id = v.telegram_id := by
  split <;> rfl

/-- C1: when the platform is known and the user is registered, a committed
`add_click` appends exactly one ledger row attributable to that user,
bumps that user's lifetime counter by exactly 1 and refreshes the
`last_active` timestamp; and because all three writes sit in one
transaction ended by a single `conn.commit()`, a store failure
(`commitOk = false`: the caught exception path, where the connection is
closed without committing) leaves the store completely unchanged — none of
the three effects is observed. -/
theorem addClick_atomic (db : DB) (tid : Int) (p : String) (cid : Option Int)
    (now : Int) (u : UserRow)
    (hp : p ∈ platforms) (hu : userByTid db tid = some u) :
    ((add_click db tid p cid now true).1.clicks
       = db.clicks ++ [{ id := db.nextClickId, user_id := u.id, platform := p,
                         course_id := cid, clicked_at := now }]) ∧
    (clicksOf (add_click db tid p cid now true).1 u.id).length
      = (clicksOf db u.id).length + 1 ∧
    userByTid (add_click db tid p cid now true).1 tid
      = some { u with clicks_count := u.clicks_count + 1, last_active := now } ∧
    (add_click db tid p cid now false).1 = db := by
  have hc : platforms.contains p = true := by simpa using hp
  unfold add_click
  unfold userByTid at hu
  rw [hu]
  simp only [if_neg (not_not_intro hc)]
  refine ⟨rfl, ?_, ?_, rfl⟩
  · show ((db.clicks ++
        [({ id := db.nextClickId, user_id := u.id, platform := p,
            course_id := cid, clicked_at := now } : ClickRow)]).filter
          (fun c => c.user_id == u.id)).length
      = (clicksOf db u.id).length + 1
    rw [List.filter_append]
    simp [clicksOf]
  · show (db.users.map (fun v =>
        if v.id == u.id then
          { v with clicks_count := v.clicks_count + 1, last_active := now }
        else v)).find? (fun v => v.telegram_id == tid)
      = some { u with clicks_count := u.clicks_count + 1, last_active := now }
    rw [find?_tid_map db.users _ tid (bump_preserves_tid u.id now), hu]
    show some (if u.id == u.id then
        { u with clicks_count := u.clicks_count + 1, last_active := now }
      else u) = some { u with clicks_count := u.clicks_count + 1,
                              last_active := now }
    rw [if_pos (by simp)]

/-- Witness for C1: recording a skillbox click for the registered user of
`sampleDb` at time 400, with and without a successful commit. -/
theorem addClick_atomic_witness :
    ("skillbox" ∈ platforms) ∧
    userByTid sampleDb 10 = some sampleUser ∧
    (((add_click sampleDb 10 "skillbox" none 400 true).1.clicks
       = sampleDb.clicks ++
           [{ id := sampleDb.nextClickId, user_id := sampleUser.id,
              platform := "skillbox", course_id := none, clicked_at := 400 }]) ∧
     (clicksOf (add_click sampleDb 10 "skillbox" none 400 true).1
         sampleUser.id).length
       = (clicksOf sampleDb sampleUser.id).length + 1 ∧
     userByTid (add_click sampleDb 10 "skillbox" none 400 true).1 10
       = some { sampleUser with clicks_count := sampleUser.clicks_count + 1,
                                last_active := 400 } ∧
     (add_click sampleDb 10 "skillbox" none 400 false).1 = sampleDb) :=
  ⟨by decide, by decide,
   addClick_atomic sampleDb 10 "skillbox" none 400 sampleUser
     (by decide) (by decide)⟩

/-! ### Claim C4 -/

/-- Counterexample to C4 as stated: the spec promises a failure indication
for a registered user clicking an unknown platform, but the Python function
ends every path with a bare `return`, so the caller receives `None` on the
rejection path and on the success path alike — the returned value of the
rejected call equals the returned value of a successful call and indicates
nothing.  (The store is indeed left unchanged, and user 10 is registered.) -/
theorem addClick_no_failure_indication :
    (add_click sampleDb 10 "unknown_platform" none 400 true).2
      = (add_click sampleDb 10 "skillbox" none 400 true).2 ∧
    (add_click sampleDb 10 "unknown_platform" none 400 true).1 = sampleDb ∧
    userByTid sampleDb 10 = some sampleUser := by decide

/-- C4 (amended): a call with an unknown platform, or for an unregistered
external id, leaves the store (ledger and all user counters) unchanged and
does not raise (the model is total; the Python code logs and returns); but
it returns `None` exactly as the success path does — there is no failure
indication distinguishing the rejected call from a successful one. -/
theorem addClick_rejects (db : DB) (tid : Int) (p : String) (cid : Option Int)
    (now : Int) (ok : Bool) :
    (platforms.contains p = false → add_click db tid p cid now ok = (db, none)) ∧
    (userByTid db tid = none → add_click db tid p cid now ok = (db, none)) ∧
    (add_click db tid p cid now ok).2 = none := by
  refine ⟨?_, ?_, ?_⟩
  · intro h
    unfold add_click
    rw [if_pos (by rw [h]; exact Bool.false_ne_true)]
  · intro h
    unfold userByTid at h
    unfold add_click
    by_cases hc : ¬ ((platforms.contains p) = true)
    · rw [if_pos hc]
    · rw [if_neg hc, h]
  · unfold add_click
    by_cases hc : ¬ ((platforms.contains p) = true)
    · rw [if_pos hc]
    · rw [if_neg hc]
      cases hfind : db.users.find? (fun v => v.telegram_id == tid) with
      | none => rfl
      | some v => cases ok <;> rfl

/-- Witness for C4: the unknown-platform rejection on `sampleDb` (user 10
registered) and the unknown-user rejection on the empty store. -/
theorem addClick_rejects_witness :
    platforms.contains "unknown_platform" = false ∧
    add_click sampleDb 10 "unknown_platform" none 400 true = (sampleDb, none) ∧
    userByTid emptyDB 99 = none ∧
    add_click emptyDB 99 "skillbox" none 400 true = (emptyDB, none) :=
  ⟨by decide,
   (addClick_rejects sampleDb 10 "unknown_platform" none 400 true).1 (by decide),
   by decide,
   (addClick_rejects emptyDB 99 "skillbox" none 400 true).2.1 (by decide)⟩

/-! ### Helper lemmas for `add_user` -/

theorem addUser_fresh (db : DB) (tid : Int) (un fn ln : String)
    (rid : Option Int) (now : Int) (ts : String)
    (htid : ∀ u ∈ db.users, u.telegram_id ≠ tid)
    (hcode : ∀ u ∈ db.users, u.ref_code ≠ some (genRefCode tid ts)) :
    add_user db tid un fn ln rid now ts
      = ({ users := db.users ++ [newUserRow db tid un fn ln rid now ts],
           clicks := db.clicks, nextUserId := db.nextUserId + 1,
           nextClickId := db.nextClickId }, genRefCode tid ts) := by
  have h1 : db.users.any (fun u => u.telegram_id == tid) = false := by
    rw [List.any_eq_false]
    intro u hu
    simp [htid u hu]
  have h2 : db.users.any
      (fun u => u.ref_code == some (genRefCode tid ts)) = false := by
    rw [List.any_eq_false]
    intro u hu
    simp [hcode u hu]
  simp [add_user, h1, h2, newUserRow]

theorem addUser_existing (db : DB) (tid : Int) (un fn ln : String)
    (rid : Option Int) (now : Int) (ts : String) (u : UserRow)
    (hu : u ∈ db.users) (ht : u.telegram_id = tid) :
    add_user db tid un fn ln rid now ts = (db, genRefCode tid ts) := by
  have h1 : db.users.any (fun v => v.telegram_id == tid) = true :=
    List.any_eq_true.mpr ⟨u, hu, by simp [ht]⟩
  simp [add_user, h1]

/-! ### Claim C9 -/

/-- C9: registration stores the supplied referrer id exactly as given, with
no check that any user has that external id: even under the explicit
assumption that no row matches `rid` (a dangling reference), the insert
succeeds and the stored `referrer_id` is `some rid`.  (The `hdangling`
hypothesis is deliberately unused by the proof — nothing in `add_user`
looks at it, which is precisely the absence of validation.) -/
theorem addUser_stores_referrer (db : DB) (tid : Int) (un fn ln : String)
    (rid : Int) (now : Int) (ts : String)
    (htid : ∀ u ∈ db.users, u.telegram_id ≠ tid)
    (hcode : ∀ u ∈ db.users, u.ref_code ≠ some (genRefCode tid ts))
    (hdangling : ∀ u ∈ db.users, u.telegram_id ≠ rid) :
    (add_user db tid un fn ln (some rid) now ts).1.users
      = db.users ++ [newUserRow db tid un fn ln (some rid) now ts] ∧
    (newUserRow db tid un fn ln (some rid) now ts).referrer_id = some rid := by
  rw [addUser_fresh db tid un fn ln (some rid) now ts htid hcode]
  exact ⟨rfl, rfl⟩

/-- Witness for C9: registering id 1 into the empty store with referrer id
999, which matches no user — the dangling reference is stored as given. -/
theorem addUser_stores_referrer_witness :
    (∀ u ∈ emptyDB.users, u.telegram_id ≠ (1 : Int)) ∧
    (∀ u ∈ emptyDB.users, u.ref_code ≠ some (genRefCode 1 "100.0")) ∧
    (∀ u ∈ emptyDB.users, u.telegram_id ≠ (999 : Int)) ∧
    ((add_user emptyDB 1 "u" "f" "l" (some 999) 100 "100.0").1.users
       = emptyDB.users ++ [newUserRow emptyDB 1 "u" "f" "l" (some 999) 100 "100.0"] ∧
     (newUserRow emptyDB 1 "u" "f" "l" (some 999) 100 "100.0").referrer_id
       = some 999) :=
  ⟨by decide, by decide, by decide,
   addUser_stores_referrer emptyDB 1 "u" "f" "l" 999 100 "100.0"
     (by decide) (by decide) (by decide)⟩

/-! ### Claim C2 -/

/-- Counterexample to C2 as stated: registering the same external id 1
twice (at times 100 and 200) returns `md5("1100.0")[:8] = "084d739f"` the
first time and the freshly generated `md5("1200.0")[:8] = "6f8f8c09"` the
second time — `add_user` returns its new hash even when the insert was
ignored, so the two returned referral codes differ. -/
theorem addUser_second_code_differs :
    (add_user (add_user emptyDB 1 "u" "f" "l" none 100 "100.0").1
        1 "u" "f" "l" none 200 "200.0").2
      ≠ (add_user emptyDB 1 "u" "f" "l" none 100 "100.0").2 := by decide

/-- C2 (amended): calling `add_user` twice with the same external id never
creates a second user row — the second call leaves the store completely
unchanged and exactly one row was added in total, with the stored referral
code fixed by the first call; but the value returned is a fresh
`genRefCode` of each call's own timestamp, so the second call returns
`genRefCode tid ts2` rather than the stored (first) code. -/
theorem addUser_idempotent_rows (db : DB) (tid : Int)
    (un fn ln un2 fn2 ln2 : String) (r1 r2 : Option Int)
    (t1 t2 : Int) (ts1 ts2 : String)
    (htid : ∀ u ∈ db.users, u.telegram_id ≠ tid)
    (hcode : ∀ u ∈ db.users, u.ref_code ≠ some (genRefCode tid ts1)) :
    ((add_user (add_user db tid un fn ln r1 t1 ts1).1
        tid un2 fn2 ln2 r2 t2 ts2).1
      = (add_user db tid un fn ln r1 t1 ts1).1) ∧
    (add_user db tid un fn ln r1 t1 ts1).1.users.length
      = db.users.length + 1 ∧
    Option.map (fun u => u.ref_code)
        (userByTid (add_user (add_user db tid un fn ln r1 t1 ts1).1
          tid un2 fn2 ln2 r2 t2 ts2).1 tid)
      = some (some (genRefCode tid ts1)) ∧
    (add_user db tid un fn ln r1 t1 ts1).2 = genRefCode tid ts1 ∧
    (add_user (add_user db tid un fn ln r1 t1 ts1).1
        tid un2 fn2 ln2 r2 t2 ts2).2 = genRefCode tid ts2 := by
  have hfresh := addUser_fresh db tid un fn ln r1 t1 ts1 htid hcode
  have hrow : newUserRow db tid un fn ln r1 t1 ts1
      ∈ (add_user db tid un fn ln r1 t1 ts1).1.users := by
    rw [hfresh]
    exact List.mem_append.mpr (Or.inr (List.mem_cons_self _ _))
  have hsecond := addUser_existing (add_user db tid un fn ln r1 t1 ts1).1
    tid un2 fn2 ln2 r2 t2 ts2 (newUserRow db tid un fn ln r1 t1 ts1) hrow rfl
  refine ⟨?_, ?_, ?_, ?_, ?_⟩
  · rw [hsecond]
  · rw [hfresh]
    simp
  · rw [hsecond]
    show Option.map (fun u => u.ref_code)
        (userByTid (add_user db tid un fn ln r1 t1 ts1).1 tid)
      = some (some (genRefCode tid ts1))
    rw [hfresh]
    unfold userByTid
    show ((db.users ++ [newUserRow db tid un fn ln r1 t1 ts1]).find?
        (fun u => u.telegram_id == tid)).map (fun u => u.ref_code)
      = some (some (genRefCode tid ts1))
    rw [List.find?_append]
    have hnone : db.users.find? (fun u => u.telegram_id == tid) = none := by
      rw [List.find?_eq_none]
      intro u hu
      simp [htid u hu]
    rw [hnone]
    show ([newUserRow db tid un fn ln r1 t1 ts1].find?
        (fun u => u.telegram_id == tid)).map (fun u => u.ref_code)
      = some (some (genRefCode tid ts1))
    simp [newUserRow]
  · rw [hfresh]
  · rw [hsecond]

/-- Witness for C2: two registrations of id 1 against the empty store at
timestamps "100.0" and "200.0". -/
theorem addUser_idempotent_rows_witness :
    (∀ u ∈ emptyDB.users, u.telegram_id ≠ (1 : Int)) ∧
    (∀ u ∈ emptyDB.users, u.ref_code ≠ some (genRefCode 1 "100.0")) ∧
    (((add_user (add_user emptyDB 1 "u" "f" "l" none 100 "100.0").1
        1 "u2" "f2" "l2" none 200 "200.0").1
      = (add_user emptyDB 1 "u" "f" "l" none 100 "100.0").1) ∧
    (add_user emptyDB 1 "u" "f" "l" none 100 "100.0").1.users.length
      = emptyDB.users.length + 1 ∧
    Option.map (fun u => u.ref_code)
        (userByTid (add_user (add_user emptyDB 1 "u" "f" "l" none 100 "100.0").1
          1 "u2" "f2" "l2" none 200 "200.0").1 1)
      = some (some (genRefCode 1 "100.0")) ∧
    (add_user emptyDB 1 "u" "f" "l" none 100 "100.0").2 = genRefCode 1 "100.0" ∧
    (add_user (add_user emptyDB 1 "u" "f" "l" none 100 "100.0").1
        1 "u2" "f2" "l2" none 200 "200.0").2 = genRefCode 1 "200.0") :=
  ⟨by decide, by decide,
   addUser_idempotent_rows emptyDB 1 "u" "f" "l" "u2" "f2" "l2" none none
     100 200 "100.0" "200.0" (by decide) (by decide)⟩

/-! ### Claim C3 -/

/-- Counterexample to C3 as stated: generation is a single attempt with no
retry.  External id 42 is not registered in `plantedDb`, yet when its
freshly generated code collides with an existing code the single
`INSERT OR IGNORE` is silently dropped: the store is left exactly as it
was — zero user rows created, no regeneration, no retry — where the claim
promises every first-time registration with a fresh external id to create
a row under a collision-free code. -/
theorem addUser_collision_drops_row :
    (∀ u ∈ plantedDb.users, u.telegram_id ≠ (42 : Int)) ∧
    genRefCode 42 "1000.0" = "65017e52" ∧
    (add_user plantedDb 42 "u" "f" "l" none 1000 "1000.0").1 = plantedDb := by
  refine ⟨by decide, by rfl, by rfl⟩

/-- C3 (amended): a sequence of first-time registrations with pairwise
distinct external ids creates one row per request and stores their
(pairwise distinct) generated codes, **provided** the generated codes are
pairwise distinct and collide with no existing code; the uniqueness of the
stored codes rests on that assumption about the hash outputs, enforced only
by `INSERT OR IGNORE` silently dropping a colliding registration — there is
no retry. -/
theorem runRegs_distinct_codes (db : DB) (rs : List RegReq)
    (htid : (rs.map (fun r => r.telegram_id)).Nodup)
    (htid0 : ∀ r ∈ rs, ∀ u ∈ db.users, u.telegram_id ≠ r.telegram_id)
    (hcode : (rs.map regCode).Nodup)
    (hcode0 : ∀ r ∈ rs, ∀ u ∈ db.users, u.ref_code ≠ some (regCode r)) :
    (runRegs db rs).users.length = db.users.length + rs.length ∧
    (runRegs db rs).users.map (fun u => u.ref_code)
      = db.users.map (fun u => u.ref_code)
          ++ rs.map (fun r => some (regCode r)) := by
  induction rs generalizing db with
  | nil => simp [runRegs]
  | cons r rs ih =>
    have hfresh := addUser_fresh db r.telegram_id r.username r.first_name
      r.last_name r.referrer_id r.now r.tsStr
      ((List.forall_mem_cons.mp htid0).1)
      ((List.forall_mem_cons.mp hcode0).1)
    have hrunner : runRegs db (r :: rs)
        = runRegs (add_user db r.telegram_id r.username r.first_name
            r.last_name r.referrer_id r.now r.tsStr).1 rs := rfl
    have htidtail : (rs.map (fun x => x.telegram_id)).Nodup :=
      (List.nodup_cons.mp (by simpa using htid)).2
    have htidhead : r.telegram_id ∉ rs.map (fun x => x.telegram_id) :=
      (List.nodup_cons.mp (by simpa using htid)).1
    have hcodetail : (rs.map regCode).Nodup :=
      (List.nodup_cons.mp (by simpa using hcode)).2
    have hcodehead : regCode r ∉ rs.map regCode :=
      (List.nodup_cons.mp (by simpa using hcode)).1
    have htid0' : ∀ x ∈ rs,
        ∀ u ∈ (add_user db r.telegram_id r.username r.first_name
          r.last_name r.referrer_id r.now r.tsStr).1.users,
        u.telegram_id ≠ x.telegram_id := by
      intro x hx u hu
      rw [hfresh] at hu
      rcases List.mem_append.mp hu with hin | hnewr
      · exact (List.forall_mem_cons.mp htid0).2 x hx u hin
      · have : u = newUserRow db r.telegram_id r.username r.first_name
            r.last_name r.referrer_id r.now r.tsStr := by simpa using hnewr
        rw [this]
        show r.telegram_id ≠ x.telegram_id
        intro hcontra
        apply htidhead
        rw [hcontra]
        exact List.mem_map.mpr ⟨x, hx, rfl⟩
    have hcode0' : ∀ x ∈ rs,
        ∀ u ∈ (add_user db r.telegram_id r.username r.first_name
          r.last_name r.referrer_id r.now r.tsStr).1.users,
        u.ref_code ≠ some (regCode x) := by
      intro x hx u hu
      rw [hfresh] at hu
      rcases List.mem_append.mp hu with hin | hnewr
      · exact (List.forall_mem_cons.mp hcode0).2 x hx u hin
      · have : u = newUserRow db r.telegram_id r.username r.first_name
            r.last_name r.referrer_id r.now r.tsStr := by simpa using hnewr
        rw [this]
        show some (genRefCode r.telegram_id r.tsStr) ≠ some (regCode x)
        intro hcontra
        have heq : regCode r = regCode x := by
          simpa [regCode] using hcontra
        apply hcodehead
        rw [heq]
        exact List.mem_map.mpr ⟨x, hx, rfl⟩
    obtain ⟨ihlen, ihmap⟩ := ih (add_user db r.telegram_id r.username
      r.first_name r.last_name r.referrer_id r.now r.tsStr).1
      htidtail htid0' hcodetail hcode0'
    constructor
    · rw [hrunner, ihlen, hfresh]
      simp
      omega
    · rw [hrunner, ihmap, hfresh]
      simp [newUserRow, regCode]

/-- Witness for C3 (amended): running `twoRegs` against the empty store
creates 2 rows carrying the 2 distinct generated codes. -/
theorem runRegs_distinct_codes_witness :
    ((twoRegs.map (fun r => r.telegram_id)).Nodup) ∧
    ((twoRegs.map regCode).Nodup) ∧
    ((runRegs emptyDB twoRegs).users.length
        = emptyDB.users.length + twoRegs.length ∧
     (runRegs emptyDB twoRegs).users.map (fun u => u.ref_code)
       = emptyDB.users.map (fun u => u.ref_code)
           ++ twoRegs.map (fun r => some (regCode r))) :=
  ⟨by decide, by decide,
   runRegs_distinct_codes emptyDB twoRegs (by decide) (by decide)
     (by decide) (by decide)⟩

/-! ### Claim C5 -/

/-- C5: for any registered user, `get_user_stats` returns the found user
row together with the total click count and the distinct-platform count
over that user's clicks, a per-platform breakdown sorted by descending
click count that is a permutation of the per-platform `GROUP BY` counts,
and the at most 5 most recent clicks sorted by descending timestamp, all
drawn from that user's clicks.  The claim's concrete instance — clicks
{(skillbox), (skillbox), (geekbrains)} giving breakdown
[("skillbox", 2), ("geekbrains", 1)] and total 3 — is the witness below. -/
theorem getUserStats_aggregation (db : DB) (tid : Int) (s : UserStats)
    (h : get_user_stats db tid = some s) :
    userByTid db tid = some s.user ∧
    s.total_clicks = (userClicks db tid).length ∧
    s.platforms_count
      = (dedupFirst ((userClicks db tid).map (fun c => c.platform))).length ∧
    List.Sorted countDesc s.platforms_clicks ∧
    s.platforms_clicks.Perm (platformCounts (userClicks db tid)) ∧
    List.Sorted pairTimeDesc s.recent_clicks ∧
    s.recent_clicks.length = min 5 (userClicks db tid).length ∧
    (∀ e ∈ s.recent_clicks,
      e ∈ (userClicks db tid).map (fun c => (c.platform, c.clicked_at))) := by
  unfold get_user_stats at h
  cases hf : db.users.find? (fun u => u.telegram_id == tid) with
  | none =>
    rw [hf] at h
    exact absurd h (by simp)
  | some u =>
    rw [hf] at h
    have hs := Option.some.inj h
    subst hs
    refine ⟨?_, rfl, rfl, ?_, ?_, ?_, ?_, ?_⟩
    · unfold userByTid
      exact hf
    · exact List.sorted_insertionSort countDesc (platformCounts (userClicks db tid))
    · exact List.perm_insertionSort countDesc (platformCounts (userClicks db tid))
    · have hs1 : List.Sorted timeDesc
          (List.insertionSort timeDesc (userClicks db tid)) :=
        List.sorted_insertionSort timeDesc (userClicks db tid)
      have hs2 : List.Sorted timeDesc
          ((List.insertionSort timeDesc (userClicks db tid)).take 5) :=
        List.Pairwise.sublist (List.take_sublist 5 _) hs1
      exact List.pairwise_map.mpr hs2
    · show (((List.insertionSort timeDesc (userClicks db tid)).take 5).map
          (fun c => (c.platform, c.clicked_at))).length
        = min 5 (userClicks db tid).length
      rw [List.length_map, List.length_take,
        (List.perm_insertionSort timeDesc (userClicks db tid)).length_eq]
    · intro e he
      have he2 : e ∈ ((List.insertionSort timeDesc (userClicks db tid)).take 5).map
          (fun c => (c.platform, c.clicked_at)) := he
      rcases List.mem_map.mp he2 with ⟨c, hc, rfl⟩
      refine List.mem_map.mpr ⟨c, ?_, rfl⟩
      exact (List.perm_insertionSort timeDesc (userClicks db tid)).subset
        (List.Sublist.mem hc (List.take_sublist 5 _))

/-- Witness for C5 at the claim's concrete instance: user 10 of `sampleDb`
has clicks {(skillbox, 100), (skillbox, 200), (geekbrains, 300)}, the
returned breakdown is [("skillbox", 2), ("geekbrains", 1)] in that order
and the total is 3 (both visible in `sampleStats`). -/
theorem getUserStats_aggregation_witness :
    get_user_stats sampleDb 10 = some sampleStats ∧
    (userByTid sampleDb 10 = some sampleStats.user ∧
     sampleStats.total_clicks = (userClicks sampleDb 10).length ∧
     sampleStats.platforms_count
       = (dedupFirst ((userClicks sampleDb 10).map (fun c => c.platform))).length ∧
     List.Sorted countDesc sampleStats.platforms_clicks ∧
     sampleStats.platforms_clicks.Perm (platformCounts (userClicks sampleDb 10)) ∧
     List.Sorted pairTimeDesc sampleStats.recent_clicks ∧
     sampleStats.recent_clicks.length = min 5 (userClicks sampleDb 10).length ∧
     (∀ e ∈ sampleStats.recent_clicks,
       e ∈ (userClicks sampleDb 10).map (fun c => (c.platform, c.clicked_at)))) :=
  ⟨by decide, getUserStats_aggregation sampleDb 10 sampleStats (by decide)⟩
